import Mathlib

/-!
Shallow embedding of pyimgaug/augmenters2.py.

Batches are modelled as flat arrays: an NDArray holds a shape, a numpy dtype
tag and flattened element data. Element values are modelled over the integers:
every concrete value exercised by the verified properties (pixel values in
0..255, multipliers such as 2.0, probabilities 0.0 and 1.0, offsets 0) is
integral, so integer data models the float computations of the source exactly
at these inputs. Random streams are modelled as an opaque state of type Nat;
drawing advances the state, copying a stream duplicates the state, and all
draws are deterministic functions of the state, which is the contract stated
for the external random stream and parameter sampling interfaces.

Python exceptions are modelled with the Except monad over PyErr. The error
names follow the error taxonomy of the specification where it gives one
(invalidInput for the shared base validation, configError for constructor
validation) and the literal Python exception class otherwise (typeError,
attributeError, nameError, valueError, assertionError).
-/

inductive PyErr where
  | invalidInput
  | typeError
  | attributeError
  | nameError
  | valueError
  | assertionError
  | configError
deriving DecidableEq, Repr

inductive Dtype where
  | uint8
  | float32
  | float64
  | object
deriving DecidableEq, Repr

/-- Model of a numpy ndarray: shape, dtype tag, and flattened element data
(row-major, as numpy stores it). -/
structure NDArray where
  shape : List Nat
  dtype : Dtype
  data : List Int
deriving DecidableEq, Repr

instance : DecidableEq (Except PyErr NDArray) := fun a b =>
  match a, b with
  | .ok x, .ok y =>
      if h : x = y then isTrue (by rw [h]) else isFalse (fun hc => h (Except.ok.inj hc))
  | .error x, .error y =>
      if h : x = y then isTrue (by rw [h]) else isFalse (fun hc => h (Except.error.inj hc))
  | .ok _, .error _ => isFalse (fun hc => Except.noConfusion hc)
  | .error _, .ok _ => isFalse (fun hc => Except.noConfusion hc)

/-- Modelled from the spec: the random stream interface of section 6 is an
external dependency (numpy RandomState); a stream is an opaque mutable state.
We model the state as a Nat and this hash as the deterministic value a stream
in state s yields for the i-th entry of a drawn array. -/
def mix (s i : Nat) : Nat := (s * 131 + i * 29 + 7) % 1000

/-- Modelled from the spec: a draw mutates the internal state of the stream;
advanceRS is the state after one drawing call. -/
def advanceRS (s : Nat) : Nat := s + 1

/-- An idealized stream copy: a fresh stream carrying the state of the given
one, per the fork/snapshot contract of section 6; draws from the copy do not
affect the original. This is what copy_random_state (augmenters2.py line 8)
is intended to do; the helper as written actually raises (see
copy_random_state_works), so definitions using copyRS model the intended
fork, and any claim settled on a path through copyRS accounts for the real
raise separately. -/
def copyRS (s : Nat) : Nat := s

/-- Model of the fact that copy_random_state (line 8) is broken: it evaluates
np.random.RandomState(random_state.get_state()), passing the full state
tuple where the RandomState constructor expects a seed; numpy rejects a
tuple holding a string and an array as a seed, so every call of the helper
raises a seeding error (modelled below as valueError; the precise exception
class varies with the numpy version, but no version accepts it). -/
def copy_random_state_works : Bool := false

/-- The stochastic parameter forms consumed by the embedded augmenters:
Deterministic (constant), Binomial (Bernoulli with success probability p),
Uniform (continuous uniform over an interval). -/
inductive SParam where
  | deterministicP (v : Int)
  | binomialP (p : ℚ)
  | uniformP (a b : Int)
deriving DecidableEq, Repr

/-- Modelled from the spec: parameters.py is imported by augmenters2.py but is
not under src; section 6 specifies draw_samples(shape, random_stream) as a
pure sampling function, deterministic given the stream state. Deterministic
yields a constant array; Binomial yields 1 with probability p (so always 0 at
p = 0 and always 1 at p = 1, the mix hash being below 1000); Uniform yields
values in the requested interval. Each call advances the consumed stream. -/
def drawSamples : SParam → Nat → Nat → List Int × Nat
  | .deterministicP v, n, s => (List.replicate n v, advanceRS s)
  | .binomialP p, n, s =>
      ((List.range n).map fun i =>
        if (mix s i : Int) * (p.den : Int) < p.num * 1000 then 1 else 0, advanceRS s)
  | .uniformP a b, n, s =>
      ((List.range n).map fun i => a + (b - a) * (mix s i : Int) / 1000, advanceRS s)

/-- Modelled from the spec: random_state.randint(0, 10**6, size=(n,)) draws an
array of n integers from the stream (section 6 draw_integers). -/
def drawIntsList (s n : Nat) : List Nat := (List.range n).map fun i => mix s i

/-- Model of np.clip(v, 0, 255) on one element. -/
def clipV (v : Int) : Int := max 0 (min 255 v)

/-- The flattened data of images[i] inside a batch whose per-image size is sz. -/
def imageSlice (d : List Int) (i sz : Nat) : List Int := (d.drop (i * sz)).take sz

/-- Model of the slice assignment result[i] = img inside a batch whose
per-image size is sz. -/
def setImageData (d : List Int) (i sz : Nat) (img : List Int) : List Int :=
  d.take (i * sz) ++ img ++ d.drop (i * sz + sz)

/-- Model of np.fliplr on one image of shape (h, w, c): element (r, col, ch)
of the output is element (r, w - 1 - col, ch) of the input, on flattened
row-major data. -/
def fliplrData (h w c : Nat) (img : List Int) : List Int :=
  (List.range (h * w * c)).map fun idx =>
    img.getD ((idx / (c * w)) * w * c + (w - 1 - (idx / c) % w) * c + idx % c) 0

/-- Modelled from the spec: the seeded per-image Gaussian noise generator,
rs.normal(loc, scale, size), is an external numpy kernel; section 4.6 only
requires a full-resolution noise array with the drawn mean and scale,
deterministic given the seed. -/
def noiseList (seed : Nat) (loc scale : Int) (k : Nat) : List Int :=
  (List.range k).map fun j => loc + scale * ((mix seed j : Int) - 500)

/-- Model of result[i] += 255 * noise for image i (per-image size sz) on the
flattened batch data. -/
def addNoiseImage (d : List Int) (i sz : Nat) (seed : Nat) (loc scale : Int) : List Int :=
  (List.range d.length).map fun idx =>
    if i * sz ≤ idx ∧ idx < i * sz + sz then
      d.getD idx 0 + 255 * (noiseList seed loc scale sz).getD (idx - i * sz) 0
    else d.getD idx 0

/-- Model of result[i] = result[i] * mask for image i (per-image size sz,
elementwise mask of size sz) on the flattened batch data. -/
def mulImageAt (d : List Int) (i sz : Nat) (mask : List Int) : List Int :=
  (List.range d.length).map fun idx =>
    if i * sz ≤ idx ∧ idx < i * sz + sz then
      d.getD idx 0 * mask.getD (idx - i * sz) 0
    else d.getD idx 0

/-- Model of numpy broadcasting for result * samples where result has shape
(n, h, w, c) and samples has shape (m,): the samples axis is aligned with the
LAST axis of result. The product exists iff m = c, or m = 1, or c = 1; in the
last case the output shape widens to (n, h, w, m). Returns none on a
broadcasting ValueError. -/
def mulBroadcastLast (n h w c : Nat) (d samples : List Int) : Option (List Nat × List Int) :=
  let m := samples.length
  if m = c then
    some ([n, h, w, c],
      (List.range (n * h * w * c)).map fun idx => d.getD idx 0 * samples.getD (idx % c) 0)
  else if m = 1 then
    some ([n, h, w, c], d.map fun v => v * samples.getD 0 0)
  else if c = 1 then
    some ([n, h, w, m],
      ((List.range (n * h * w)).map fun j => samples.map fun sv => d.getD j 0 * sv).flatten)
  else none

/-- Caller input to Augmenter.transform (augmenters2.py line 29): a single
numpy array, a Python list/tuple of arrays, or any other object. -/
inductive PyInput where
  | arr (x : NDArray)
  | pylist (xs : List NDArray)
  | otherObject

/-- Model of np.array applied to a list of arrays (augmenters2.py line 34):
equal-shaped arrays of one dtype stack into an array of one higher rank;
ragged input yields an object-dtype array of the list length. An empty list
yields the float64 empty array. -/
def stackImages (xs : List NDArray) : NDArray :=
  match xs with
  | [] => ⟨[0], .float64, []⟩
  | x :: rest =>
    if rest.all fun y => decide (y.shape = x.shape) && decide (y.dtype = x.dtype) then
      ⟨xs.length :: x.shape, x.dtype, (xs.map NDArray.data).flatten⟩
    else ⟨[xs.length], .object, []⟩

/-- An Augmenter instance as Augmenter.transform consumes it: its _transform
logic (a pure function of the validated batch and the stream state, returning
the transformed batch or the Python exception it raises, plus the mutated
stream state), its determinism flag, and the current state of its owned
random stream. -/
structure Aug where
  tfm : NDArray → Nat → Except PyErr NDArray × Nat
  deterministic : Bool
  state : Nat

def exceptIsOk : Except PyErr NDArray → Bool
  | .ok _ => true
  | .error _ => false

/-- Line 35 of augmenters2.py guards the array path of Augmenter.transform
with is_np_array(images); the name is_np_array is neither defined in the
module nor imported (the imports are random, numpy, copy, the abc names and
six names from parameters), so a Python name lookup raises NameError the
moment the condition is evaluated. This flag records that the name is
unbound in the program: every statement guarded by the condition is dead. -/
def is_np_array_defined : Bool := false

/-- Dispatch core of Augmenter.transform for an array input (lines 35 to
39): evaluating the guard is_np_array(images) raises NameError (the name is
undefined, see is_np_array_defined) BEFORE the rank-4 assert (line 36), the
uint8 assert (line 38) and the _transform dispatch (line 39) can run; the
branch under the flag models those unreachable statements as they would run
if the name were bound. -/
def transformAux (a : Aug) (x : NDArray) : Except PyErr NDArray × Nat :=
  if is_np_array_defined then
    if x.shape.length = 4 then
      if x.dtype = Dtype.uint8 then a.tfm x a.state
      else (.error .invalidInput, a.state)
    else (.error .invalidInput, a.state)
  else (.error .nameError, a.state)

/-- Determinism wrapper of Augmenter.transform (lines 30 to 31 and 43 to 44):
when the determinism flag is set, the stream state snapshotted on entry is
restored after the internal logic returns. There is no try/finally in the
source, so when the internal logic raises, set_state does not run and the
mutated state is kept. -/
def restoreIf (a : Aug) (r : Except PyErr NDArray × Nat) : Except PyErr NDArray × Nat :=
  if a.deterministic && exceptIsOk r.1 then (r.1, a.state) else r

/-- Model of Augmenter.transform (augmenters2.py lines 29 to 46). A list or
tuple input is stacked with np.array and re-enters transform recursively
(line 34), whose own determinism wrapper applies before the outer one; any
other input also reaches the elif guard at line 35 first, so the raise at
line 41 is dead code and such a call raises NameError exactly like the
array path. Because line 35 always raises, no call of transform ever
returns a batch (and the deterministic restore at lines 43 to 44, which
runs only on a normal return, never executes either). Returns the result
together with the state of the owned stream after the call. -/
def transformP (a : Aug) (inp : PyInput) : Except PyErr NDArray × Nat :=
  match inp with
  | .arr x => restoreIf a (transformAux a x)
  | .pylist xs => restoreIf a (restoreIf a (transformAux a (stackImages xs)))
  | .otherObject =>
    if is_np_array_defined then (.error .typeError, a.state)
    else (.error .nameError, a.state)

/-- Model of Fliplr._transform (lines 246 to 253): result = np.copy(images);
one Binomial sample per image; images whose sample is 1 are replaced in the
result by np.fliplr(images[i]). -/
def Fliplr_transform (p : SParam) (x : NDArray) (s : Nat) : Except PyErr NDArray × Nat :=
  let n := x.shape.getD 0 0
  let h := x.shape.getD 1 0
  let w := x.shape.getD 2 0
  let c := x.shape.getD 3 0
  let sz := h * w * c
  let drawn := drawSamples p n s
  let data := (List.range n).foldl
    (fun d i =>
      if drawn.1.getD i 0 = 1 then setImageData d i sz (fliplrData h w c (imageSlice x.data i sz))
      else d) x.data
  (.ok { x with data := data }, drawn.2)

/-- Model of GaussianBlur._transform (lines 294 to 304): result =
np.copy(images); one sigma per image; for the first image with sigma above 0
the loop body evaluates ndimage.gaussian_filter, but the name ndimage is
never imported in augmenters2.py, so the call raises NameError; with no
positive sigma the copy is returned unchanged. -/
def GaussianBlur_transform (sigma : SParam) (x : NDArray) (s : Nat) : Except PyErr NDArray × Nat :=
  let n := x.shape.getD 0 0
  let drawn := drawSamples sigma n s
  if (List.range n).any fun i => decide (0 < drawn.1.getD i 0) then (.error .nameError, drawn.2)
  else (.ok x, drawn.2)

/-- Model of Dropout._transform (lines 375 to 384): result = np.copy(images);
one seed per image drawn from the incoming stream (advancing it); for each
image a fresh stream seeded with its seed draws a full (h, w, c) Binomial
mask which is multiplied elementwise into the result. -/
def Dropout_transform (p : SParam) (x : NDArray) (s : Nat) : Except PyErr NDArray × Nat :=
  let n := x.shape.getD 0 0
  let sz := x.shape.getD 1 0 * x.shape.getD 2 0 * x.shape.getD 3 0
  let seeds := drawIntsList s n
  let data := (List.range n).foldl
    (fun d i => mulImageAt d i sz (drawSamples p sz (seeds.getD i 0)).1) x.data
  (.ok { x with data := data }, advanceRS s)

/-- Model of Multiply._transform (lines 404 to 411): result =
np.copy(images); one multiplier per image over shape (n,); result = result *
samples re-binds result to a NEW array of float dtype (uint8 times float
promotes to float64), the samples axis broadcasting against the LAST axis of
the batch (a ValueError when the image count and channel count are
incompatible); optional np.clip into [0, 255]; the float array is returned
with no conversion back to uint8. -/
def Multiply_transform (mul : SParam) (clip : Bool) (x : NDArray) (s : Nat) :
    Except PyErr NDArray × Nat :=
  let n := x.shape.getD 0 0
  let drawn := drawSamples mul n s
  match mulBroadcastLast n (x.shape.getD 1 0) (x.shape.getD 2 0) (x.shape.getD 3 0)
      x.data drawn.1 with
  | none => (.error .valueError, drawn.2)
  | some (shp, d) =>
    let d2 := if clip then d.map clipV else d
    (.ok ⟨shp, .float64, d2⟩, drawn.2)

/-- The sampling-and-noise body of AdditiveGaussianNoise._transform (lines
336 to 356) as it would run with a working stream copy: result =
np.copy(images); per-image seeds, means and scales are drawn from three
independent copies of the incoming stream (the original is not advanced by
these draws); for each image, the assertion scale >= 0 is checked, and when
its mean is nonzero or its scale is positive a generator seeded with its seed
produces noise which is scaled by 255 and added; optional clip into [0, 255];
finally one throwaway draw advances the stream. When an image raises, the
exception propagates and the final draw does not happen. -/
def AdditiveGaussianNoise_body (loc scale : SParam) (clip : Bool) (x : NDArray) (s : Nat) :
    Except PyErr NDArray × Nat :=
  let n := x.shape.getD 0 0
  let sz := x.shape.getD 1 0 * x.shape.getD 2 0 * x.shape.getD 3 0
  let seeds := drawIntsList (copyRS s) n
  let locs := (drawSamples loc n (copyRS s)).1
  let scales := (drawSamples scale n (copyRS s)).1
  let step := fun (acc : Except PyErr (List Int)) (i : Nat) => acc.bind fun d =>
    if scales.getD i 0 < 0 then .error .assertionError
    else if locs.getD i 0 ≠ 0 ∨ 0 < scales.getD i 0 then
      .ok (addNoiseImage d i sz (seeds.getD i 0) (locs.getD i 0) (scales.getD i 0))
    else .ok d
  match (List.range n).foldl step (.ok x.data) with
  | .error e => (.error e, s)
  | .ok d =>
    let d2 := if clip then d.map clipV else d
    (.ok { x with data := d2 }, advanceRS s)

/-- Model of AdditiveGaussianNoise._transform (lines 335 to 356) as the
program runs it: the first statement of the method body, line 339, calls
copy_random_state, which raises before any draw or image processing happens
(see copy_random_state_works), so the sampling-and-noise body of lines 340
to 356 is unreachable; the branch under the flag models it as it would run
if the helper worked. -/
def AdditiveGaussianNoise_transform (loc scale : SParam) (clip : Bool) (x : NDArray) (s : Nat) :
    Except PyErr NDArray × Nat :=
  if copy_random_state_works then AdditiveGaussianNoise_body loc scale clip x s
  else (.error .valueError, s)

/-- Model of Sometimes._transform (lines 144 to 155): result =
np.copy(images); one Bernoulli sample per image. An image whose sample is 1
is routed through self.if_list, but the constructor stores the branch under
the name then_list and no attribute if_list ever exists, so the lookup raises
AttributeError. An image whose sample is 0 is routed through
self.else_list._transform(subimage): when else_list is None (absent branch)
the attribute access on None raises AttributeError, and when else_list is an
Augmenter the call omits the required random_state argument and raises
TypeError. The then_list argument is carried but never read by this method. -/
def Sometimes_transform (p : SParam) (then_list else_list : Option Unit) (x : NDArray) (s : Nat) :
    Except PyErr NDArray × Nat :=
  let n := x.shape.getD 0 0
  let drawn := drawSamples p n s
  let step := fun (acc : Except PyErr (List Int)) (i : Nat) => acc.bind fun _ =>
    if drawn.1.getD i 0 = 1 then .error .attributeError
    else match else_list with
      | none => .error .attributeError
      | some _ => .error .typeError
  match (List.range n).foldl step (.ok x.data) with
  | .error e => (.error e, drawn.2)
  | .ok d => (.ok { x with data := d }, drawn.2)

/-- Model of Sequence._transform (lines 78 to 82): the loop body calls
augmenter._transform(result) with a single argument, omitting the required
random_state parameter of _transform(self, images, random_state), so the
first child call raises TypeError; with no children the batch is returned
unchanged. -/
def Sequence_transform (children : List Aug) (x : NDArray) (s : Nat) :
    Except PyErr NDArray × Nat :=
  match children with
  | [] => (.ok x, s)
  | _ :: _ => (.error .typeError, s)

/-- The accepted forms of the mul argument of Multiply.__init__: a float
scalar, a tuple or list of floats, a stochastic parameter, or any other
object. -/
inductive MulArg where
  | scalar (q : Int)
  | seq (xs : List Int)
  | param (p : SParam)
  | otherArg

/-- Model of Multiply.__init__ (lines 390 to 402): a scalar multiplier is
validated with assert mul >= 0.0 (a construction-time configuration error
when negative); a tuple/list is only checked to have exactly 2 entries and
becomes Uniform(mul[0], mul[1]) with NO sign validation; a stochastic
parameter is taken as is; any other type raises. -/
def Multiply_init : MulArg → Except PyErr SParam
  | .scalar q => if 0 ≤ q then .ok (.deterministicP q) else .error .configError
  | .seq [a, b] => .ok (.uniformP a b)
  | .seq _ => .error .configError
  | .param p => .ok p
  | .otherArg => .error .typeError

/-- Model of Affine.__init__ line 419: the first statement reads the name
warp_args, which is neither a parameter of the constructor nor defined
anywhere, so every construction of Affine raises NameError before any
parameter handling runs. -/
def Affine_init : Except PyErr Unit := .error .nameError

/-- Model of the value cast performed by astype(np.uint8) on a nonnegative
in-range float: C truncation toward zero followed by taking the value modulo
256 (the values reached here are exact integers below 2 to the 24, where
float32 arithmetic is exact). -/
def uint8cast (v : Int) : Int := v % 256

/-- Model of Affine._transform (lines 508 to 539) restricted to the identity
sample path the claim describes: result = np.copy(images).astype(np.float32)
keeps the raw 0..255 pixel values (no normalization into [0, 1]); when every
sampled scale is 1 and translation, rotation and shear are 0, the warp kernel
call is skipped for every image, one throwaway draw advances the stream, and
the method returns (result * 255.0).astype(np.uint8), i.e. every pixel value
v comes back as (v * 255) mod 256. -/
def Affine_transform_identitySkip (x : NDArray) (s : Nat) : Except PyErr NDArray × Nat :=
  (.ok { x with data := x.data.map fun v => uint8cast (v * 255) }, advanceRS s)

/-- An explicit store of numpy arrays, used to express aliasing and in-place
mutation: ids below next are allocated; np.copy allocates a fresh id. -/
structure Heap where
  store : Nat → NDArray
  next : Nat

/-- Allocation of a fresh array (np.copy and expression results): returns the
fresh id together with the grown heap. -/
def Heap.alloc (h : Heap) (x : NDArray) : Nat × Heap :=
  (h.next, ⟨fun j => if j = h.next then x else h.store j, h.next + 1⟩)

/-- In-place overwrite of the array stored at id i (slice assignment and
np.clip with an out argument mutate their target array). -/
def Heap.write (h : Heap) (i : Nat) (x : NDArray) : Heap :=
  ⟨fun j => if j = i then x else h.store j, h.next⟩

/-- Heap view of Fliplr._transform (lines 246 to 253): the input batch is
read from its array id, np.copy allocates the result array, and every slice
assignment result[i] = np.fliplr(images[i]) writes in place into the result
array only. -/
def Fliplr_transformH (p : SParam) (imgsId : Nat) (h : Heap) (s : Nat) :
    Except PyErr Nat × Heap × Nat :=
  let x := h.store imgsId
  let al := h.alloc x
  let n := x.shape.getD 0 0
  let hh := x.shape.getD 1 0
  let w := x.shape.getD 2 0
  let c := x.shape.getD 3 0
  let sz := hh * w * c
  let drawn := drawSamples p n s
  let h2 := (List.range n).foldl
    (fun hc i =>
      if drawn.1.getD i 0 = 1 then
        hc.write al.1
          { hc.store al.1 with
            data := setImageData (hc.store al.1).data i sz
              (fliplrData hh w c (imageSlice (hc.store imgsId).data i sz)) }
      else hc) al.2
  (.ok al.1, h2, drawn.2)

/-- Heap view of Multiply._transform (lines 404 to 411): np.copy allocates
the result array; result = result * samples allocates a NEW float array and
re-binds the name result to it; np.clip(result, 0, 255, out=result) then
mutates only that new array. The input array is never written. -/
def Multiply_transformH (mul : SParam) (clip : Bool) (imgsId : Nat) (h : Heap) (s : Nat) :
    Except PyErr Nat × Heap × Nat :=
  let x := h.store imgsId
  let al := h.alloc x
  let n := x.shape.getD 0 0
  let drawn := drawSamples mul n s
  match mulBroadcastLast n (x.shape.getD 1 0) (x.shape.getD 2 0) (x.shape.getD 3 0)
      (al.2.store al.1).data drawn.1 with
  | none => (.error .valueError, al.2, drawn.2)
  | some (shp, d) =>
    let al2 := al.2.alloc ⟨shp, .float64, d⟩
    let h3 := if clip then
        al2.2.write al2.1 { al2.2.store al2.1 with data := (al2.2.store al2.1).data.map clipV }
      else al2.2
    (.ok al2.1, h3, drawn.2)

/-- Heap view of AdditiveGaussianNoise._transform (lines 335 to 356):
np.copy allocates the result array; result[i] += 255 * noise and the final
np.clip(result, 0, 255, out=result) mutate only the result array; the input
array is never written, also on the exception path of the scale assertion. -/
def AdditiveGaussianNoise_transformH (loc scale : SParam) (clip : Bool) (imgsId : Nat)
    (h : Heap) (s : Nat) : Except PyErr Nat × Heap × Nat :=
  let x := h.store imgsId
  let al := h.alloc x
  let n := x.shape.getD 0 0
  let sz := x.shape.getD 1 0 * x.shape.getD 2 0 * x.shape.getD 3 0
  let seeds := drawIntsList (copyRS s) n
  let locs := (drawSamples loc n (copyRS s)).1
  let scales := (drawSamples scale n (copyRS s)).1
  let step := fun (st : Heap × Option PyErr) (i : Nat) =>
    match st.2 with
    | some _ => st
    | none =>
      if scales.getD i 0 < 0 then (st.1, some PyErr.assertionError)
      else if locs.getD i 0 ≠ 0 ∨ 0 < scales.getD i 0 then
        (st.1.write al.1
          { st.1.store al.1 with
            data := addNoiseImage (st.1.store al.1).data i sz (seeds.getD i 0)
              (locs.getD i 0) (scales.getD i 0) }, none)
      else st
  let fld := (List.range n).foldl step (al.2, none)
  match fld.2 with
  | some e => (.error e, fld.1, s)
  | none =>
    let h3 := if clip then
        fld.1.write al.1 { fld.1.store al.1 with data := (fld.1.store al.1).data.map clipV }
      else fld.1
    (.ok al.1, h3, advanceRS s)

/-- Heap view of Sometimes._transform (lines 144 to 155): np.copy allocates
the result array; the per-image loop raises (if_list attribute missing, or
the else branch call is broken) before any write into the result, and the
images array passed to the children is a VIEW of the input, but no child call
ever executes; the input array is never written. With an empty batch the loop
body never runs and the untouched copy is returned. -/
def Sometimes_transformH (p : SParam) (then_list else_list : Option Unit) (imgsId : Nat)
    (h : Heap) (s : Nat) : Except PyErr Nat × Heap × Nat :=
  let x := h.store imgsId
  let al := h.alloc x
  let n := x.shape.getD 0 0
  let drawn := drawSamples p n s
  let step := fun (st : Heap × Option PyErr) (i : Nat) =>
    match st.2 with
    | some _ => st
    | none =>
      if drawn.1.getD i 0 = 1 then (st.1, some PyErr.attributeError)
      else match else_list with
        | none => (st.1, some PyErr.attributeError)
        | some _ => (st.1, some PyErr.typeError)
  let fld := (List.range n).foldl step (al.2, none)
  match fld.2 with
  | some e => (.error e, fld.1, drawn.2)
  | none => (.ok al.1, fld.1, drawn.2)

/-- A valid 1x1x1x1 uint8 batch with single pixel value 7. -/
def batch7 : NDArray := ⟨[1, 1, 1, 1], .uint8, [7]⟩

/-- A valid 1x1x1x1 uint8 batch with single pixel value 200. -/
def batch200 : NDArray := ⟨[1, 1, 1, 1], .uint8, [200]⟩

/-- A valid 1x1x1x1 uint8 batch with single pixel value 100. -/
def batch100 : NDArray := ⟨[1, 1, 1, 1], .uint8, [100]⟩

/-- A valid 1x1x2x1 uint8 batch: one image with two horizontal pixels 5, 9. -/
def batch21 : NDArray := ⟨[1, 1, 2, 1], .uint8, [5, 9]⟩

/-- The horizontal mirror of batch21. -/
def batch21f : NDArray := ⟨[1, 1, 2, 1], .uint8, [9, 5]⟩

/-- A valid 2x1x1x1 uint8 batch: two one-pixel images with values 10, 20. -/
def batchN2 : NDArray := ⟨[2, 1, 1, 1], .uint8, [10, 20]⟩

/-- The concrete scenario batch of the specification: shape (2, 4, 4, 3),
every pixel 100. -/
def batch100s : NDArray := ⟨[2, 4, 4, 3], .uint8, List.replicate 96 100⟩

/-- A single 3-dimensional uint8 image of shape (1, 2, 1). -/
def img3 : NDArray := ⟨[1, 2, 1], .uint8, [3, 4]⟩

/-- An invalid input array: rank 2 instead of 4. -/
def badArr : NDArray := ⟨[2, 2], .uint8, [1, 2, 3, 4]⟩

/-- A deterministic augmenter instance whose internal logic succeeds and
advances its stream. -/
def idOkAug : Aug := ⟨fun x s => (.ok x, s + 5), true, 42⟩

/-- A Deterministic Clone of Fliplr(p = 1.0) with seed state 7. -/
def fliplrAugA : Aug := ⟨Fliplr_transform (.binomialP 1), true, 7⟩

/-- A Deterministic Clone of Fliplr(p = 1.0) with seed state 11. -/
def fliplrAugB : Aug := ⟨Fliplr_transform (.binomialP 1), true, 11⟩

/-- A one-array heap: id 0 holds batch7, the next fresh id is 1. -/
def myHeap : Heap := ⟨fun _ => batch7, 1⟩

theorem store_write_ne (h : Heap) (i j : Nat) (x : NDArray) (hne : j ≠ i) :
    (Heap.write h i x).store j = h.store j := by
  simp [Heap.write, hne]

theorem foldl_write_preserve (step : Heap → Nat → Heap) (j : Nat)
    (hstep : ∀ hc i, (step hc i).store j = hc.store j) :
    ∀ (l : List Nat) (h0 : Heap), (l.foldl step h0).store j = h0.store j := by
  intro l
  induction l with
  | nil => intro h0; rfl
  | cons b bs ih => intro h0; rw [List.foldl_cons, ih, hstep]

theorem foldl_write_preserve2 (step : Heap × Option PyErr → Nat → Heap × Option PyErr) (j : Nat)
    (hstep : ∀ st i, (step st i).1.store j = st.1.store j) :
    ∀ (l : List Nat) (st0 : Heap × Option PyErr), (l.foldl step st0).1.store j = st0.1.store j := by
  intro l
  induction l with
  | nil => intro st0; rfl
  | cons b bs ih => intro st0; rw [List.foldl_cons, ih, hstep]

/-- C1: the determinism mechanism never gets to act. For every augmenter
with the determinism flag set (in particular every Deterministic Clone) and
every input, apply raises NameError at line 35 (is_np_array undefined)
before validation, dispatch and the state restore, leaving the stream state
untouched; no output batch is ever produced, so repeated calls never yield
bit-identical (or any) output batches. -/
theorem deterministic_apply_never_returns (a : Aug) (inp : PyInput)
    (hdet : a.deterministic = true) :
    transformP a inp = (.error .nameError, a.state) := by
  cases inp <;>
    simp [transformP, transformAux, restoreIf, exceptIsOk, is_np_array_defined]

/-- C1 witness: a concrete deterministic instance applied to a valid batch
raises NameError with its stream state untouched. -/
theorem deterministic_apply_never_returns_witness :
    transformP idOkAug (.arr batch7) = (.error .nameError, idOkAug.state) :=
  deterministic_apply_never_returns idOkAug (.arr batch7) rfl

/-- C2: the shared base validation is dead code. For every internal
transform logic t and every array input, in particular every array whose
rank is not 4 or whose dtype is not uint8, apply raises NameError at line 35
(is_np_array undefined) before the rank and dtype asserts at lines 36 and 38
can run, so InvalidInput is never raised; a list input is stacked and hits
the same NameError through the recursive transform call. -/
theorem base_validation_never_reached (t : NDArray → Nat → Except PyErr NDArray × Nat)
    (det : Bool) (s : Nat) (x : NDArray) (xs : List NDArray)
    (hx : x.shape.length ≠ 4 ∨ x.dtype ≠ Dtype.uint8) :
    transformP ⟨t, det, s⟩ (.arr x) = (.error .nameError, s) ∧
    transformP ⟨t, det, s⟩ (.arr x) ≠ (.error .invalidInput, s) ∧
    (transformP ⟨t, det, s⟩ (.pylist xs)).1 = .error .nameError := by
  refine ⟨?_, ?_, ?_⟩ <;>
    simp [transformP, transformAux, restoreIf, exceptIsOk, is_np_array_defined]

/-- C2 witness: a rank-2 uint8 array is rejected with NameError, not
InvalidInput, and a list input fails the same way. -/
theorem base_validation_never_reached_witness :
    transformP ⟨fun x s => (.ok x, s), false, 0⟩ (.arr badArr) = (.error .nameError, 0) ∧
    transformP ⟨fun x s => (.ok x, s), false, 0⟩ (.arr badArr) ≠ (.error .invalidInput, 0) ∧
    (transformP ⟨fun x s => (.ok x, s), false, 0⟩ (.pylist [img3])).1 = .error .nameError :=
  base_validation_never_reached (fun x s => (.ok x, s)) false 0 badArr [img3]
    (Or.inl (by decide))

/-- C3: evaluation at the failing input. At the apply level the claimed
equality cannot even be tested: every transform call raises NameError at
line 35 before Sequence._transform runs (second conjunct, for the chain side
too). At the cited _transform level, Sequence calls each child with the
random_state argument missing and raises TypeError at the first child (first
conjunct), while chaining the two deterministic Fliplr clones by hand, with
their own seed states, succeeds and flips the image twice back to the
original (last conjuncts). The Sequence never threads the batch through its
children as the claim states. -/
theorem sequence_chaining_broken :
    Sequence_transform [fliplrAugA, fliplrAugB] batch21 3 = (.error .typeError, 3) ∧
    (transformP fliplrAugA (.arr batch21)).1 = .error .nameError ∧
    (Fliplr_transform (.binomialP 1) batch21 fliplrAugA.state).1 = .ok batch21f ∧
    (Fliplr_transform (.binomialP 1) batch21f fliplrAugB.state).1 = .ok batch21 := by decide

/-- C4: evaluation at the failing input. At the apply level every transform
call raises NameError at line 35 before Sometimes._transform is reached; at
the cited _transform level (lines 144 to 155), with branch probability 0.0
every Bernoulli sample is 0 and the image is routed into
self.else_list._transform with else_list = None, raising AttributeError
instead of passing the image through unchanged. Either way apply does not
return the batch unchanged. -/
theorem sometimes_p0_absent_else_crashes :
    (Sometimes_transform (.binomialP 0) (some ()) none batch7 13).1 = .error .attributeError ∧
    (Sometimes_transform (.binomialP 0) (some ()) none batch7 13).1 ≠ .ok batch7 := by decide

/-- C5: evaluation at the failing input. Constructing
Affine(scale=1.0, translate=0, rotate=0.0, shear=0.0) already raises
NameError (line 419 reads the undefined name warp_args); and even granting
construction and identity samples, the skip path returns
(result * 255.0).astype(np.uint8) on the unnormalized float copy, so the
pixel value 100 comes back as 156, not 100: apply is not the identity. -/
theorem affine_identity_violated :
    Affine_init = Except.error PyErr.nameError ∧
    (Affine_transform_identitySkip batch100 0).1 = .ok ⟨[1, 1, 1, 1], .uint8, [156]⟩ ∧
    (156 : Int) ≠ 100 := by
  refine ⟨rfl, by decide, by decide⟩

/-- C6: evaluation at the failing input. Multiply(mul=2.0, clip=True) on the
1x1x1x1 batch with pixel 200 multiplies and clamps correctly (200 * 2.0
clamps to 255) but returns a float64 array: the result is never converted
back to the 8-bit unsigned element type before return. -/
theorem multiply_clip_result_not_uint8 :
    Multiply_transform (.deterministicP 2) true batch200 0 =
      (.ok ⟨[1, 1, 1, 1], .float64, [255]⟩, advanceRS 0) ∧
    Dtype.float64 ≠ Dtype.uint8 := by
  exact ⟨by decide, by decide⟩

/-- C8 counterexample: constructing Multiply with the two-entry range
(-1.0, 2.0), which contains a negative multiplier value, SUCCEEDS: the range
branch of Multiply.__init__ only checks the length, so no configuration
error is raised at construction time, contrary to the claim. -/
theorem multiply_negative_range_accepted :
    Multiply_init (.seq [-1, 2]) = .ok (.uniformP (-1) 2) := rfl

/-- C8 as amended: a negative SCALAR multiplier is rejected eagerly at
construction (assert mul >= 0.0), and apply never raises this configuration
error; but a two-entry range is only length-checked, so range specifications
containing negative values are accepted at construction. -/
theorem multiply_init_scalar_checked_range_unchecked (q a b : Int) (hq : q < 0) :
    Multiply_init (.scalar q) = .error .configError ∧
    Multiply_init (.seq [a, b]) = .ok (.uniformP a b) := by
  constructor
  · simp only [Multiply_init]
    rw [if_neg (not_le.mpr hq)]
  · rfl

/-- C8 witness: the scalar -2.0 is rejected at construction while the range
(-1.0, 3.0) is accepted. -/
theorem multiply_init_scalar_checked_range_unchecked_witness :
    Multiply_init (.scalar (-2)) = .error .configError ∧
    Multiply_init (.seq [-1, 3]) = .ok (.uniformP (-1) 3) :=
  multiply_init_scalar_checked_range_unchecked (-2) (-1) 3 (by decide)

/-- C10: evaluation at the failing inputs. GaussianBlur with sigma 2 on a
valid batch raises NameError (the blur kernel name ndimage is never
imported), returning no batch at all; Multiply with a per-image multiplier on
a 2-image single-channel batch returns shape (2, 1, 1, 2) instead of
(2, 1, 1, 1), because the samples broadcast against the channel axis; while
Fliplr and Dropout do preserve the batch shape as the claim states. -/
theorem shape_preservation_divergences :
    (GaussianBlur_transform (.deterministicP 2) batch7 0).1 = .error .nameError ∧
    (Multiply_transform (.deterministicP 2) true batchN2 0).1 =
      .ok ⟨[2, 1, 1, 2], .float64, [20, 20, 40, 40]⟩ ∧
    ([2, 1, 1, 2] : List Nat) ≠ [2, 1, 1, 1] ∧
    (Fliplr_transform (.binomialP 1) batch21 0).1 = .ok batch21f ∧
    batch21f.shape = batch21.shape ∧
    (Dropout_transform (.binomialP 0) batch21 0).1 = .ok ⟨[1, 1, 2, 1], .uint8, [0, 0]⟩ := by
  decide

/-- C7: evaluation at the failing input. Applying
AdditiveGaussianNoise(loc=0.0, scale=0.0) to the (2, 4, 4, 3) all-100 batch
does not return the batch: the apply wrapper raises NameError at line 35
(first conjunct); granting the wrapper, _transform itself raises at line 339
because copy_random_state passes a state tuple where the RandomState
constructor expects a seed (second conjunct). The sampling body, made
reachable with a working stream copy, would return the batch unchanged
(third conjunct): the zero-variance no-op is the intent of the cited lines,
and the code fails it before any sampling happens. -/
theorem additive_gaussian_noise_zero_crashes :
    (transformP
      ⟨AdditiveGaussianNoise_transform (.deterministicP 0) (.deterministicP 0) true, false, 0⟩
      (.arr batch100s)).1 = .error .nameError ∧
    AdditiveGaussianNoise_transform (.deterministicP 0) (.deterministicP 0) true batch100s 0 =
      (.error .valueError, 0) ∧
    (AdditiveGaussianNoise_body (.deterministicP 0) (.deterministicP 0) true batch100s 0).1 =
      .ok batch100s := by decide

/-- C9: no embedded transform mutates its input array. In the heap model,
Fliplr, Multiply, AdditiveGaussianNoise and Sometimes each allocate a copy of
the input (np.copy) and write only into freshly allocated arrays, so for any
already-allocated input id the array stored there is unchanged after the
call, whether the call returns a batch or raises. -/
theorem transforms_do_not_mutate_input (p mul loc scale : SParam) (clip : Bool)
    (tl el : Option Unit) (h : Heap) (imgsId s : Nat) (hid : imgsId < h.next) :
    (Fliplr_transformH p imgsId h s).2.1.store imgsId = h.store imgsId ∧
    (Multiply_transformH mul clip imgsId h s).2.1.store imgsId = h.store imgsId ∧
    (AdditiveGaussianNoise_transformH loc scale clip imgsId h s).2.1.store imgsId =
      h.store imgsId ∧
    (Sometimes_transformH p tl el imgsId h s).2.1.store imgsId = h.store imgsId := by
  have hne : imgsId ≠ h.next := Nat.ne_of_lt hid
  have hne2 : imgsId ≠ h.next + 1 := Nat.ne_of_lt (Nat.lt_succ_of_lt hid)
  refine ⟨?_, ?_, ?_, ?_⟩
  · unfold Fliplr_transformH Heap.alloc
    dsimp only
    rw [foldl_write_preserve]
    · exact if_neg hne
    · intro hc i
      dsimp only
      split
      · exact store_write_ne _ _ _ _ hne
      · rfl
  · unfold Multiply_transformH Heap.alloc
    dsimp only
    split
    · simp [hne]
    · split
      · simp [Heap.write, hne, hne2]
      · simp [hne, hne2]
  · unfold AdditiveGaussianNoise_transformH Heap.alloc
    dsimp only
    have hstep : ∀ (st : Heap × Option PyErr) (i : Nat),
        ((fun (st : Heap × Option PyErr) (i : Nat) =>
          match st.2 with
          | some _ => st
          | none =>
            if (drawSamples scale ((h.store imgsId).shape.getD 0 0) (copyRS s)).1.getD i 0 < 0 then
              (st.1, some PyErr.assertionError)
            else if (drawSamples loc ((h.store imgsId).shape.getD 0 0) (copyRS s)).1.getD i 0 ≠ 0 ∨
                0 < (drawSamples scale ((h.store imgsId).shape.getD 0 0) (copyRS s)).1.getD i 0 then
              (st.1.write h.next
                { st.1.store h.next with
                  data := addNoiseImage (st.1.store h.next).data i
                    ((h.store imgsId).shape.getD 1 0 * (h.store imgsId).shape.getD 2 0 *
                      (h.store imgsId).shape.getD 3 0)
                    ((drawIntsList (copyRS s) ((h.store imgsId).shape.getD 0 0)).getD i 0)
                    ((drawSamples loc ((h.store imgsId).shape.getD 0 0) (copyRS s)).1.getD i 0)
                    ((drawSamples scale ((h.store imgsId).shape.getD 0 0) (copyRS s)).1.getD i 0) },
                none)
            else st) st i).1.store imgsId = st.1.store imgsId := by
      intro st i
      obtain ⟨sh, serr⟩ := st
      cases serr with
      | some e => rfl
      | none =>
        dsimp only
        split
        · rfl
        · split
          · exact store_write_ne _ _ _ _ hne
          · rfl
    split
    · rw [foldl_write_preserve2 _ _ hstep]
      exact if_neg hne
    · split
      · rw [store_write_ne _ _ _ _ hne, foldl_write_preserve2 _ _ hstep]
        exact if_neg hne
      · rw [foldl_write_preserve2 _ _ hstep]
        exact if_neg hne
  · unfold Sometimes_transformH Heap.alloc
    dsimp only
    have hstep : ∀ (st : Heap × Option PyErr) (i : Nat),
        ((fun (st : Heap × Option PyErr) (i : Nat) =>
          match st.2 with
          | some _ => st
          | none =>
            if (drawSamples p ((h.store imgsId).shape.getD 0 0) s).1.getD i 0 = 1 then
              (st.1, some PyErr.attributeError)
            else match el with
              | none => (st.1, some PyErr.attributeError)
              | some _ => (st.1, some PyErr.typeError)) st i).1.store imgsId =
          st.1.store imgsId := by
      intro st i
      obtain ⟨sh, serr⟩ := st
      cases serr with
      | some e => rfl
      | none =>
        dsimp only
        split
        · rfl
        · cases el <;> rfl
    split
    · rw [foldl_write_preserve2 _ _ hstep]
      exact if_neg hne
    · rw [foldl_write_preserve2 _ _ hstep]
      exact if_neg hne

/-- C9 witness: the four transforms applied to the array at id 0 of a
concrete one-array heap leave that array unchanged. -/
theorem transforms_do_not_mutate_input_witness :
    (Fliplr_transformH (.binomialP 1) 0 myHeap 0).2.1.store 0 = myHeap.store 0 ∧
    (Multiply_transformH (.deterministicP 2) true 0 myHeap 0).2.1.store 0 = myHeap.store 0 ∧
    (AdditiveGaussianNoise_transformH (.deterministicP 0) (.deterministicP 0) true 0
      myHeap 0).2.1.store 0 = myHeap.store 0 ∧
    (Sometimes_transformH (.binomialP 0) (some ()) none 0 myHeap 0).2.1.store 0 =
      myHeap.store 0 :=
  transforms_do_not_mutate_input (.binomialP 1) (.deterministicP 2) (.deterministicP 0)
    (.deterministicP 0) true (some ()) none myHeap 0 0 (by decide)
